import Mathlib

/-!
Verification of the moltyjacs trust-level / verification-claim engine
(`src/tools/hai.ts`), the claim-set CLI handler (`src/cli.ts`), and the
private-key password resolver (`src/password.ts`), as a shallow embedding.

Machine integers do not occur; strings are modelled as Lean `String`s,
environment variables as `Option String` values, JavaScript exceptions as
`Except String`, and the file system as an explicit record of functions.
-/

/-- Trust levels, from `src/tools/hai.ts` (`type TrustLevel`). -/
inductive TrustLevel
  | basic
  | domain
  | attested
deriving DecidableEq, Repr, Fintype

/-- Verification claims, from `src/tools/hai.ts` (`type VerificationClaim =
"unverified" | "verified" | "verified-hai.ai"`). -/
inductive VerificationClaim
  | unverified
  | verified
  | verifiedHaiAi
deriving DecidableEq, Repr, Fintype

/-- The string spelling of each verification claim in the source. -/
def VerificationClaim.toText : VerificationClaim → String
  | .unverified => "unverified"
  | .verified => "verified"
  | .verifiedHaiAi => "verified-hai.ai"

/-- `determineTrustLevel` from `src/tools/hai.ts`:
`if (haiRegistered) return "attested"; if (hasDomain && dnsVerified) return "domain"; return "basic"`. -/
def determineTrustLevel (hasDomain dnsVerified haiRegistered : Bool) : TrustLevel :=
  if haiRegistered then .attested
  else if hasDomain && dnsVerified then .domain
  else .basic

/-- `claimOrder` from `canUpgradeClaim` in `src/tools/hai.ts`. -/
def claimOrder : List VerificationClaim := [.unverified, .verified, .verifiedHaiAi]

/-- `canUpgradeClaim` from `src/tools/hai.ts`: indices in `claimOrder` of
`currentClaim || "unverified"` and of `newClaim` are compared with `>=`. -/
def canUpgradeClaim (currentClaim : Option VerificationClaim) (newClaim : VerificationClaim) : Bool :=
  let currentIndex := claimOrder.indexOf (currentClaim.getD .unverified)
  let newIndex := claimOrder.indexOf newClaim
  decide (newIndex ≥ currentIndex)

/-- `validateClaimRequirements` from `src/tools/hai.ts`. It takes exactly
three arguments — the target claim, `hasDomain`, and `haiRegistered` — and
checks no DNS evidence. -/
def validateClaimRequirements (claim : VerificationClaim) (hasDomain haiRegistered : Bool) :
    Option String :=
  if claim == .verified && !hasDomain then
    some "Claim 'verified' requires jacsAgentDomain to be configured"
  else if claim == .verifiedHaiAi && !haiRegistered then
    some "Claim 'verified-hai.ai' requires registration with HAI.ai"
  else
    none

/-- Rank of a claim in the fixed order `[unverified, verified, verified-hai.ai]`,
written from the spec's words for the refinement statement about `canUpgradeClaim`. -/
def claimRank : VerificationClaim → Nat
  | .unverified => 0
  | .verified => 1
  | .verifiedHaiAi => 2

/-! ## Password resolver (`src/password.ts`) -/

def PRIVATE_KEY_PASSWORD_ENV : String := "JACS_PRIVATE_KEY_PASSWORD"

def PASSWORD_FILE_ENV : String := "JACS_PASSWORD_FILE"

inductive PasswordSource
  | env
  | file
deriving DecidableEq, Repr

structure ResolvedPassword where
  password : String
  source : PasswordSource
  sourceName : String
deriving DecidableEq, Repr

/-- `passwordBootstrapHelp()` from `src/password.ts`. -/
def passwordBootstrapHelp : String :=
  "Password bootstrap options (configure exactly one source):\n- " ++
    PRIVATE_KEY_PASSWORD_ENV ++ " (developer default)\n- " ++
    PASSWORD_FILE_ENV ++ " (path to a file containing the password)\n- " ++
    "--password-file (CLI init convenience; path to a password file)"

/-- JavaScript `String.prototype.trim`: drop leading and trailing whitespace
(characters beyond ASCII whitespace differ between JS and `Char.isWhitespace`,
but none occur in the strings this development touches). -/
def jsTrim (s : String) : String :=
  ⟨((s.data.dropWhile Char.isWhitespace).reverse.dropWhile Char.isWhitespace).reverse⟩

/-- `isWhitespaceOnly` from `src/password.ts`: `value.trim().length === 0`. -/
def isWhitespaceOnly (value : String) : Bool :=
  (jsTrim value).length == 0

def isNewlineChar (c : Char) : Bool :=
  c == '\r' || c == '\n'

/-- `trimTrailingNewlines` from `src/password.ts`:
`value.replace(/[\r\n]+$/g, "")`, i.e. drop the maximal trailing run of CR/LF. -/
def trimTrailingNewlines (value : String) : String :=
  ⟨(value.data.reverse.dropWhile isNewlineChar).reverse⟩

/-- `envPassword !== undefined && isWhitespaceOnly(envPassword)` applied to an
optional environment value. -/
def setButEmpty : Option String → Bool
  | some v => isWhitespaceOnly v
  | none => false

/-- What `fs.lstatSync` reports about a path: symlinks and non-regular files
are distinguished, and the POSIX mode bits are carried along. -/
inductive FileKind
  | regular
  | symlink
  | other
deriving DecidableEq, Repr

structure FileStat where
  kind : FileKind
  mode : Nat
deriving DecidableEq, Repr

/-- The file-system operations `readPasswordFile` performs; `.error` models the
syscall throwing, carrying `err.message`. -/
structure FileSystem where
  lstat : String → Except String FileStat
  readFile : String → Except String String

/-- Octal rendering of a mode, as `mode.toString(8)` in the source. -/
def octalText (n : Nat) : String :=
  if n = 0 then "0" else ⟨((Nat.digits 8 n).reverse.map fun d => Char.ofNat (48 + d))⟩

/-- `readPasswordFile(filePath, sourceName)` from `src/password.ts`, with the
file system and `process.platform` passed explicitly. -/
def readPasswordFile (fsys : FileSystem) (platform : String) (filePath sourceName : String) :
    Except String String :=
  let trimmedPath := jsTrim filePath
  if trimmedPath.length == 0 then
    .error (sourceName ++ " was provided but empty.\n\n" ++ passwordBootstrapHelp)
  else
    match fsys.lstat trimmedPath with
    | .error msg =>
        .error ("Failed to read " ++ sourceName ++ " at '" ++ trimmedPath ++ "': " ++ msg ++
          ".\n\n" ++ passwordBootstrapHelp)
    | .ok stat =>
      if stat.kind == .symlink then
        .error (sourceName ++ " at '" ++ trimmedPath ++ "' must not be a symlink.\n\n" ++
          passwordBootstrapHelp)
      else if !(stat.kind == .regular) then
        .error (sourceName ++ " at '" ++ trimmedPath ++ "' must be a regular file.\n\n" ++
          passwordBootstrapHelp)
      else if platform != "win32" && (stat.mode &&& 0o777) &&& 0o077 != 0 then
        .error (sourceName ++ " at '" ++ trimmedPath ++ "' has insecure permissions (" ++
          octalText (stat.mode &&& 0o777) ++ "). Restrict to owner-only (for example: chmod 600 '" ++
          trimmedPath ++ "').\n\n" ++ passwordBootstrapHelp)
      else
        match fsys.readFile trimmedPath with
        | .error msg =>
            .error ("Failed to read " ++ sourceName ++ " at '" ++ trimmedPath ++ "': " ++ msg ++
              ".\n\n" ++ passwordBootstrapHelp)
        | .ok fileContents =>
          let filePassword := trimTrailingNewlines fileContents
          if isWhitespaceOnly filePassword then
            .error (sourceName ++ " at '" ++ trimmedPath ++ "' is empty.\n\n" ++
              passwordBootstrapHelp)
          else
            .ok filePassword

structure ResolvePasswordOptions where
  explicitPasswordFile : Option String := none
  requirePassword : Option Bool := none
deriving DecidableEq, Repr

/-- The `configuredSources` array built inside `resolvePrivateKeyPassword`. -/
def configuredSources (options : ResolvePasswordOptions) (envPassword envPasswordFile : Option String) :
    List String :=
  (if options.explicitPasswordFile.isSome then ["--password-file"] else []) ++
    (if envPassword.isSome then [PRIVATE_KEY_PASSWORD_ENV] else []) ++
    (if envPasswordFile.isSome then [PASSWORD_FILE_ENV] else [])

/-- `resolvePrivateKeyPassword(options)` from `src/password.ts`, with the two
environment-variable values, the file system and the platform passed
explicitly. `.ok none` models returning `null`; `.error` models throwing. -/
def resolvePrivateKeyPassword (envPassword envPasswordFile : Option String)
    (fsys : FileSystem) (platform : String) (options : ResolvePasswordOptions) :
    Except String (Option ResolvedPassword) :=
  if setButEmpty envPassword then
    .error (PRIVATE_KEY_PASSWORD_ENV ++ " is set but empty.\n\n" ++ passwordBootstrapHelp)
  else if setButEmpty envPasswordFile then
    .error (PASSWORD_FILE_ENV ++ " is set but empty.\n\n" ++ passwordBootstrapHelp)
  else if 1 < (configuredSources options envPassword envPasswordFile).length then
    .error ("Multiple password sources configured (" ++
      String.intercalate ", " (configuredSources options envPassword envPasswordFile) ++
      "). Configure exactly one source.\n\n" ++ passwordBootstrapHelp)
  else
    match envPassword with
    | some pw => .ok (some ⟨pw, .env, PRIVATE_KEY_PASSWORD_ENV⟩)
    | none =>
      if options.explicitPasswordFile.isSome then
        match readPasswordFile fsys platform (options.explicitPasswordFile.getD "") "--password-file" with
        | .error e => .error e
        | .ok pw => .ok (some ⟨pw, .file, "--password-file"⟩)
      else
        match envPasswordFile with
        | some p =>
          match readPasswordFile fsys platform p PASSWORD_FILE_ENV with
          | .error e => .error e
          | .ok pw => .ok (some ⟨pw, .file, PASSWORD_FILE_ENV⟩)
        | none =>
          if options.requirePassword == some false then
            .ok none
          else
            .error ("Missing private key password.\n\n" ++ passwordBootstrapHelp)

/-! ## Substring containment, to state "the error message names X" -/

/-- `leadMatch p l` holds when `p` is an initial segment of `l`. -/
def leadMatch : List Char → List Char → Bool
  | [], _ => true
  | _ :: _, [] => false
  | p :: ps, h :: hs => p == h && leadMatch ps hs

/-- `subMatch p l` holds when `p` occurs contiguously somewhere in `l`. -/
def subMatch (p : List Char) : List Char → Bool
  | [] => leadMatch p []
  | h :: hs => leadMatch p (h :: hs) || subMatch p hs

/-- `strHasSub hay pat` holds when `pat` occurs contiguously in `hay`. -/
def strHasSub (hay pat : String) : Bool :=
  subMatch pat.data hay.data

/-! ## Claim-set CLI handler (`src/cli.ts`, `claim` command) -/

/-- The `{ text, error? }` record the CLI handlers return (`CLIResult` in
`src/cli.ts`). -/
structure CLIResult where
  text : String
  error : Option String := none
deriving DecidableEq, Repr

/-- `validLevels` from the `claim` handler in `src/cli.ts`. -/
def validLevels : List String :=
  claimOrder.map VerificationClaim.toText

/-- The handler's `validLevels.includes(level)` check followed by the cast
`level as VerificationClaim`, modelled as a partial parse. -/
def claimOfText (level : String) : Option VerificationClaim :=
  claimOrder.find? fun c => c.toText == level

/-- The handler's gathering of `haiRegistered`: stays `false` unless the
target claim is `verified-hai.ai` and `config.agentId` and the public-key
hash are present; then the remote `checkHaiStatus` result (`none` models the
call throwing or returning `null`, caught and treated as not registered). -/
def gatherHaiRegistered (newClaim : VerificationClaim)
    (hasAgentId hasPublicKeyHash : Bool) (haiStatusVerified : Option Bool) : Bool :=
  if newClaim == .verifiedHaiAi && hasAgentId && hasPublicKeyHash then
    haiStatusVerified.getD false
  else
    false

/-- The `claim <level>` handler from `src/cli.ts` (the mutation path, after the
initialization and no-argument-display guards, which never touch state).
The second component is `config.verificationClaim` after the call:
`api.updateConfig({ verificationClaim: newClaim })` is the only mutation. -/
def claimSetHandler (stored : Option VerificationClaim)
    (hasAgentDomain hasAgentId hasPublicKeyHash : Bool) (haiStatusVerified : Option Bool)
    (level : String) : CLIResult × Option VerificationClaim :=
  match claimOfText level with
  | none =>
      ({ text := "Invalid claim level: " ++ level ++ ". Valid options: " ++
           String.intercalate ", " validLevels,
         error := some "Invalid claim level" }, stored)
  | some newClaim =>
    let currentClaim := stored.getD .unverified
    if !canUpgradeClaim (some currentClaim) newClaim then
      ({ text := "Cannot downgrade verification claim from '" ++ currentClaim.toText ++
           "' to '" ++ newClaim.toText ++ "'",
         error := some "Claim downgrade not allowed" }, stored)
    else
      let haiRegistered := gatherHaiRegistered newClaim hasAgentId hasPublicKeyHash haiStatusVerified
      match validateClaimRequirements newClaim hasAgentDomain haiRegistered with
      | some validationError =>
          ({ text := "Cannot set claim to '" ++ newClaim.toText ++ "': " ++ validationError,
             error := some validationError }, stored)
      | none =>
          ({ text := "Verification claim updated: " ++ currentClaim.toText ++ " -> " ++
               newClaim.toText,
             error := none }, some newClaim)

/-! ## Concrete fixtures for closed instances -/

/-- A file system on which every operation fails. -/
def emptyFS : FileSystem :=
  ⟨fun _ => .error "ENOENT: no such file or directory",
   fun _ => .error "ENOENT: no such file or directory"⟩

/-- A file system holding one owner-only regular credential file whose content
ends in a newline. -/
def secretFS : FileSystem :=
  ⟨fun p => if p == "/tmp/pw" then .ok ⟨.regular, 0o600⟩ else .error "ENOENT",
   fun p => if p == "/tmp/pw" then .ok "cli-file-secret\n" else .error "ENOENT"⟩

lemma leadMatch_append (p s t : List Char) (h : leadMatch p s = true) :
    leadMatch p (s ++ t) = true := by
  induction p generalizing s with
  | nil => rfl
  | cons a ps ih =>
    cases s with
    | nil => simp [leadMatch] at h
    | cons b bs =>
      simp only [leadMatch, Bool.and_eq_true] at h
      simp only [List.cons_append, leadMatch, Bool.and_eq_true]
      exact ⟨h.1, ih bs h.2⟩

lemma subMatch_append_right (p s t : List Char) (h : subMatch p s = true) :
    subMatch p (s ++ t) = true := by
  induction s with
  | nil =>
    cases p with
    | nil =>
      cases t with
      | nil => rfl
      | cons c cs => simp [subMatch, leadMatch]
    | cons a ps => simp [subMatch, leadMatch] at h
  | cons b bs ih =>
    simp only [subMatch, Bool.or_eq_true] at h
    simp only [List.cons_append, subMatch, Bool.or_eq_true]
    rcases h with h | h
    · exact Or.inl (by simpa using leadMatch_append p (b :: bs) t h)
    · exact Or.inr (ih h)

lemma subMatch_append_left (p s t : List Char) (h : subMatch p t = true) :
    subMatch p (s ++ t) = true := by
  induction s with
  | nil => simpa using h
  | cons a as ih =>
    simp only [List.cons_append, subMatch, Bool.or_eq_true]
    exact Or.inr ih

/-- Containment in the right part of a concatenation lifts to the whole. -/
lemma strHasSub_append_left (s t p : String) (h : strHasSub t p = true) :
    strHasSub (s ++ t) p = true := by
  unfold strHasSub at *
  rw [String.data_append]
  exact subMatch_append_left _ _ _ h

/-- Containment in the left part of a concatenation lifts to the whole. -/
lemma strHasSub_append_right (s t p : String) (h : strHasSub s p = true) :
    strHasSub (s ++ t) p = true := by
  unfold strHasSub at *
  rw [String.data_append]
  exact subMatch_append_right _ _ _ h

/-- C2: `determineTrustLevel` is a total deterministic function of the three
booleans: the three registry-unregistered rows of the truth table return
`basic`/`basic`/`domain` (with `(false,true,false)` also `basic`), and every
input with `haiRegistered = true` returns `attested`. -/
theorem determineTrustLevel_table :
    determineTrustLevel false false false = .basic ∧
    determineTrustLevel true false false = .basic ∧
    determineTrustLevel false true false = .basic ∧
    determineTrustLevel true true false = .domain ∧
    (∀ hasDomain dnsVerified : Bool, determineTrustLevel hasDomain dnsVerified true = .attested) ∧
    (∀ hasDomain dnsVerified : Bool,
      determineTrustLevel hasDomain dnsVerified false =
        if hasDomain && dnsVerified then .domain else .basic) := by
  decide

/-- C3: `canUpgradeClaim current new` returns true iff the rank of `new` in
the fixed order `[unverified, verified, verified-hai.ai]` is ≥ the rank of
`current`; in particular it is reflexive, and any strictly-lower target is
rejected. -/
theorem canUpgradeClaim_rank_iff :
    (∀ cur new : VerificationClaim,
      canUpgradeClaim (some cur) new = true ↔ claimRank cur ≤ claimRank new) ∧
    (∀ x : VerificationClaim, canUpgradeClaim (some x) x = true) ∧
    (∀ cur new : VerificationClaim,
      claimRank new < claimRank cur → canUpgradeClaim (some cur) new = false) := by
  decide

/-- C10: an absent current claim is treated as `unverified`, the minimum of
the order, so `canUpgradeClaim none c` is true for every target claim `c`. -/
theorem canUpgradeClaim_none :
    (∀ c : VerificationClaim, canUpgradeClaim none c = true) ∧
    (∀ c : VerificationClaim, canUpgradeClaim none c = canUpgradeClaim (some .unverified) c) := by
  decide

/-- C1 counterexample: the claim says `validateClaimRequirements` on target
`"verified"` with a configured domain but failed DNS verification returns a
DNS-related error. The source function takes no DNS evidence at all and
returns `null` for `("verified", hasDomain := true)` under every value of its
remaining argument, so no DNS-related error is ever produced. -/
theorem validateClaimRequirements_no_dns_check :
    validateClaimRequirements .verified true false = none ∧
    validateClaimRequirements .verified true true = none := by
  decide

/-- C1 amended: `validateClaimRequirements` on target `"verified"` depends only
on `hasDomain`: it returns the domain-configuration error when `hasDomain` is
false and `null` when `hasDomain` is true, for every value of `haiRegistered`
(DNS verification is never consulted by this function). -/
theorem validateClaimRequirements_verified_domain_only :
    ∀ hasDomain haiRegistered : Bool,
      validateClaimRequirements .verified hasDomain haiRegistered =
        if hasDomain then none
        else some "Claim 'verified' requires jacsAgentDomain to be configured" := by
  decide

lemma leadMatch_self (l : List Char) : leadMatch l l = true := by
  induction l with
  | nil => rfl
  | cons a t ih => simp [leadMatch, ih]

lemma strHasSub_self (s : String) : strHasSub s s = true := by
  unfold strHasSub
  cases h : s.data with
  | nil => rfl
  | cons a t => simp [subMatch, leadMatch_self]

lemma mem_configuredSources {options : ResolvePasswordOptions}
    {envPassword envPasswordFile : Option String} {n : String}
    (hn : n ∈ configuredSources options envPassword envPasswordFile) :
    n = "--password-file" ∨ n = PRIVATE_KEY_PASSWORD_ENV ∨ n = PASSWORD_FILE_ENV := by
  simp only [configuredSources, List.mem_append] at hn
  rcases hn with (h | h) | h <;> (split at h <;> simp_all)

lemma help_names :
    strHasSub passwordBootstrapHelp "--password-file" = true ∧
    strHasSub passwordBootstrapHelp PRIVATE_KEY_PASSWORD_ENV = true ∧
    strHasSub passwordBootstrapHelp PASSWORD_FILE_ENV = true := by
  decide

/-- C4: whenever more than one credential source is configured (any two or all
three of the direct-secret env var, the path env var and the explicit
override), `resolvePrivateKeyPassword` throws — it never returns a password
picked by priority — and the error message names every configured source. -/
theorem resolvePassword_multiple_sources_all_named
    (envPassword envPasswordFile : Option String) (fsys : FileSystem) (platform : String)
    (options : ResolvePasswordOptions)
    (h : 2 ≤ (configuredSources options envPassword envPasswordFile).length) :
    ∃ e, resolvePrivateKeyPassword envPassword envPasswordFile fsys platform options = .error e ∧
      ∀ n ∈ configuredSources options envPassword envPasswordFile, strHasSub e n = true := by
  have names : ∀ n ∈ configuredSources options envPassword envPasswordFile,
      strHasSub passwordBootstrapHelp n = true := by
    intro n hn
    rcases mem_configuredSources hn with rfl | rfl | rfl
    · exact help_names.1
    · exact help_names.2.1
    · exact help_names.2.2
  by_cases h1 : setButEmpty envPassword = true
  · refine ⟨PRIVATE_KEY_PASSWORD_ENV ++ " is set but empty.\n\n" ++ passwordBootstrapHelp, ?_, ?_⟩
    · simp [resolvePrivateKeyPassword, h1]
    · intro n hn
      exact strHasSub_append_left _ _ _ (names n hn)
  · by_cases h2 : setButEmpty envPasswordFile = true
    · refine ⟨PASSWORD_FILE_ENV ++ " is set but empty.\n\n" ++ passwordBootstrapHelp, ?_, ?_⟩
      · simp [resolvePrivateKeyPassword, h1, h2]
      · intro n hn
        exact strHasSub_append_left _ _ _ (names n hn)
    · have h3 : 1 < (configuredSources options envPassword envPasswordFile).length := h
      refine ⟨"Multiple password sources configured (" ++
          String.intercalate ", " (configuredSources options envPassword envPasswordFile) ++
          "). Configure exactly one source.\n\n" ++ passwordBootstrapHelp, ?_, ?_⟩
      · simp [resolvePrivateKeyPassword, h1, h2, h3]
      · intro n hn
        exact strHasSub_append_left _ _ _ (names n hn)

/-- Closed instance of C4: both environment variables configured at once. -/
theorem resolvePassword_multiple_sources_witness :
    2 ≤ (configuredSources ⟨none, none⟩ (some "env-secret") (some "/tmp/unused")).length ∧
    ∃ e, resolvePrivateKeyPassword (some "env-secret") (some "/tmp/unused") emptyFS "linux"
        ⟨none, none⟩ = .error e ∧
      ∀ n ∈ configuredSources ⟨none, none⟩ (some "env-secret") (some "/tmp/unused"),
        strHasSub e n = true :=
  ⟨by decide,
   resolvePassword_multiple_sources_all_named (some "env-secret") (some "/tmp/unused") emptyFS
     "linux" ⟨none, none⟩ (by decide)⟩

/-- C7: with no source configured, `resolvePrivateKeyPassword` throws a
"Missing private key password" error embedding the help text (which
enumerates every valid source) when `requirePassword` is true or omitted, and
returns `null` without an error when `requirePassword` is `false`. -/
theorem resolvePassword_nothing_configured
    (fsys : FileSystem) (platform : String) (options : ResolvePasswordOptions)
    (hx : options.explicitPasswordFile = none) :
    (options.requirePassword ≠ some false →
      ∃ e, resolvePrivateKeyPassword none none fsys platform options = .error e ∧
        strHasSub e "Missing private key password" = true ∧
        strHasSub e passwordBootstrapHelp = true) ∧
    (options.requirePassword = some false →
      resolvePrivateKeyPassword none none fsys platform options = .ok none) := by
  constructor
  · intro hreq
    refine ⟨"Missing private key password.\n\n" ++ passwordBootstrapHelp, ?_, ?_, ?_⟩
    · simp [resolvePrivateKeyPassword, setButEmpty, configuredSources, hx, hreq, beq_iff_eq]
    · exact strHasSub_append_right _ _ _ (by decide)
    · exact strHasSub_append_left _ _ _ (strHasSub_self _)
  · intro hreq
    simp [resolvePrivateKeyPassword, setButEmpty, configuredSources, hx, hreq, beq_iff_eq]

/-- Closed instance of C7: nothing configured with `requirePassword` omitted
throws the missing-password error; with `requirePassword := false` it returns
`null`. -/
theorem resolvePassword_nothing_configured_witness :
    (∃ e, resolvePrivateKeyPassword none none emptyFS "linux" ⟨none, none⟩ = .error e ∧
        strHasSub e "Missing private key password" = true ∧
        strHasSub e passwordBootstrapHelp = true) ∧
    resolvePrivateKeyPassword none none emptyFS "linux" ⟨none, some false⟩ = .ok none :=
  ⟨(resolvePassword_nothing_configured emptyFS "linux" ⟨none, none⟩ rfl).1 (by decide),
   (resolvePassword_nothing_configured emptyFS "linux" ⟨none, some false⟩ rfl).2 rfl⟩

/-- C9: a configured-but-empty/whitespace-only source value is a configuration
error: an empty direct-secret env var throws the dedicated message, and an
empty path env var also throws — neither is treated as unconfigured and no
other source is consulted. -/
theorem resolvePassword_empty_value_is_error
    (envPassword envPasswordFile : Option String) (fsys : FileSystem) (platform : String)
    (options : ResolvePasswordOptions) :
    (∀ v, envPassword = some v → isWhitespaceOnly v = true →
      resolvePrivateKeyPassword envPassword envPasswordFile fsys platform options =
        .error (PRIVATE_KEY_PASSWORD_ENV ++ " is set but empty.\n\n" ++ passwordBootstrapHelp)) ∧
    (∀ v, envPasswordFile = some v → isWhitespaceOnly v = true →
      ∃ e, resolvePrivateKeyPassword envPassword envPasswordFile fsys platform options =
        .error e) := by
  constructor
  · intro v hv hw
    have h1 : setButEmpty envPassword = true := by simpa [setButEmpty, hv] using hw
    simp [resolvePrivateKeyPassword, h1]
  · intro v hv hw
    have h2 : setButEmpty envPasswordFile = true := by simpa [setButEmpty, hv] using hw
    by_cases h1 : setButEmpty envPassword = true
    · exact ⟨PRIVATE_KEY_PASSWORD_ENV ++ " is set but empty.\n\n" ++ passwordBootstrapHelp,
        by simp [resolvePrivateKeyPassword, h1]⟩
    · exact ⟨PASSWORD_FILE_ENV ++ " is set but empty.\n\n" ++ passwordBootstrapHelp,
        by simp [resolvePrivateKeyPassword, h1, h2]⟩

/-- Closed instance of C9: a whitespace-only direct-secret env var and an
empty path env var each throw. -/
theorem resolvePassword_empty_value_witness :
    resolvePrivateKeyPassword (some "   ") none emptyFS "linux" ⟨none, none⟩ =
      .error (PRIVATE_KEY_PASSWORD_ENV ++ " is set but empty.\n\n" ++ passwordBootstrapHelp) ∧
    ∃ e, resolvePrivateKeyPassword none (some "") emptyFS "linux" ⟨none, none⟩ = .error e :=
  ⟨(resolvePassword_empty_value_is_error (some "   ") none emptyFS "linux" ⟨none, none⟩).1
     "   " rfl (by decide),
   (resolvePassword_empty_value_is_error none (some "") emptyFS "linux" ⟨none, none⟩).2
     "" rfl (by decide)⟩

lemma dropWhile_dropWhile (p : Char → Bool) (l : List Char) :
    (l.dropWhile p).dropWhile p = l.dropWhile p := by
  induction l with
  | nil => rfl
  | cons a t ih =>
    by_cases h : p a = true
    · simp [List.dropWhile_cons, h, ih]
    · simp [List.dropWhile_cons, h]

lemma trimTrailingNewlines_idem (s : String) :
    trimTrailingNewlines (trimTrailingNewlines s) = trimTrailingNewlines s := by
  simp [trimTrailingNewlines, List.reverse_reverse, dropWhile_dropWhile]

lemma readPasswordFile_ok_trimmed {fsys : FileSystem} {platform filePath sourceName v : String}
    (h : readPasswordFile fsys platform filePath sourceName = .ok v) :
    trimTrailingNewlines v = v := by
  simp only [readPasswordFile] at h
  split at h
  · cases h
  · split at h
    · cases h
    · split at h
      · cases h
      · split at h
        · cases h
        · split at h
          · cases h
          · split at h
            · cases h
            · split at h
              · cases h
              · cases h
                exact trimTrailingNewlines_idem _

/-- C5 counterexample: the claim says every successful resolution — including
from the direct-secret environment variable — has trailing CR/LF stripped.
With the env var set to `"env-secret\n"`, resolution succeeds with the
password verbatim: the trailing newline is kept, and stripping would have
changed it. -/
theorem resolvePassword_env_keeps_trailing_newline :
    resolvePrivateKeyPassword (some "env-secret\n") none emptyFS "linux" ⟨none, none⟩ =
      .ok (some ⟨"env-secret\n", .env, PRIVATE_KEY_PASSWORD_ENV⟩) ∧
    trimTrailingNewlines "env-secret\n" = "env-secret" ∧
    "env-secret\n" ≠ "env-secret" := by
  refine ⟨rfl, by decide, by decide⟩

/-- C5 amended: trailing-newline stripping is a guarantee of the file-based
sources only. Every successful resolution whose source is `file` (explicit
override or path env var) carries a password with trailing CR/LF stripped
(stripping it again changes nothing), while a successful resolution from the
direct env var returns the environment value verbatim. -/
theorem resolvePassword_file_sources_stripped
    (envPassword envPasswordFile : Option String) (fsys : FileSystem) (platform : String)
    (options : ResolvePasswordOptions) (r : ResolvedPassword)
    (h : resolvePrivateKeyPassword envPassword envPasswordFile fsys platform options =
      .ok (some r)) :
    (r.source = .file → trimTrailingNewlines r.password = r.password) ∧
    (r.source = .env → envPassword = some r.password) := by
  simp only [resolvePrivateKeyPassword] at h
  split at h
  · cases h
  · split at h
    · cases h
    · split at h
      · cases h
      · split at h
        · -- envPassword = some pw
          cases h
          constructor
          · intro hs; cases hs
          · intro _
            simp_all
        · -- envPassword = none
          split at h
          · -- explicit override file
            split at h
            · cases h
            · cases h
              constructor
              · intro _
                exact readPasswordFile_ok_trimmed (by assumption)
              · intro hs; cases hs
          · -- path env var
            split at h
            · -- envPasswordFile = some p
              split at h
              · cases h
              · cases h
                constructor
                · intro _
                  exact readPasswordFile_ok_trimmed (by assumption)
                · intro hs; cases hs
            · -- nothing configured
              split at h
              · simp at h
              · cases h

/-- Closed instance of the amended C5: a file containing `"cli-file-secret\n"`
passed via the explicit override resolves to the stripped password
`"cli-file-secret"`, on which stripping is the identity. -/
theorem resolvePassword_file_stripped_witness :
    resolvePrivateKeyPassword none none secretFS "linux" ⟨some "/tmp/pw", none⟩ =
      .ok (some ⟨"cli-file-secret", .file, "--password-file"⟩) ∧
    trimTrailingNewlines "cli-file-secret" = "cli-file-secret" := by
  have h : resolvePrivateKeyPassword none none secretFS "linux" ⟨some "/tmp/pw", none⟩ =
      .ok (some ⟨"cli-file-secret", .file, "--password-file"⟩) := rfl
  exact ⟨h,
    (resolvePassword_file_sources_stripped none none secretFS "linux" ⟨some "/tmp/pw", none⟩
      ⟨"cli-file-secret", .file, "--password-file"⟩ h).1 rfl⟩

/-- C6: file-based resolution rejects symlinks, non-regular files, POSIX
group/other-accessible modes (with an "insecure permissions" error), and
contents that are empty or whitespace-only after stripping trailing CR/LF;
when none of these hold and the file is readable, it succeeds with the
stripped content. -/
theorem readPasswordFile_security_checks
    (fsys : FileSystem) (platform filePath sourceName : String) (st : FileStat)
    (hpath : ((jsTrim filePath).length == 0) = false)
    (hstat : fsys.lstat (jsTrim filePath) = .ok st) :
    (st.kind = .symlink → ∃ e, readPasswordFile fsys platform filePath sourceName = .error e) ∧
    (st.kind = .other → ∃ e, readPasswordFile fsys platform filePath sourceName = .error e) ∧
    (st.kind = .regular → platform ≠ "win32" → (st.mode &&& 0o777) &&& 0o077 ≠ 0 →
      ∃ e, readPasswordFile fsys platform filePath sourceName = .error e ∧
        strHasSub e "insecure permissions" = true) ∧
    (∀ c, st.kind = .regular → (platform = "win32" ∨ (st.mode &&& 0o777) &&& 0o077 = 0) →
      fsys.readFile (jsTrim filePath) = .ok c →
      (isWhitespaceOnly (trimTrailingNewlines c) = true →
        ∃ e, readPasswordFile fsys platform filePath sourceName = .error e) ∧
      (isWhitespaceOnly (trimTrailingNewlines c) = false →
        readPasswordFile fsys platform filePath sourceName = .ok (trimTrailingNewlines c))) := by
  refine ⟨?_, ?_, ?_, ?_⟩
  · intro hk
    exact ⟨sourceName ++ " at '" ++ jsTrim filePath ++ "' must not be a symlink.\n\n" ++
        passwordBootstrapHelp,
      by simp [readPasswordFile, hpath, hstat, hk]⟩
  · intro hk
    exact ⟨sourceName ++ " at '" ++ jsTrim filePath ++ "' must be a regular file.\n\n" ++
        passwordBootstrapHelp,
      by simp [readPasswordFile, hpath, hstat, hk]⟩
  · intro hk hwin hmode
    refine ⟨sourceName ++ " at '" ++ jsTrim filePath ++ "' has insecure permissions (" ++
        octalText (st.mode &&& 0o777) ++ "). Restrict to owner-only (for example: chmod 600 '" ++
        jsTrim filePath ++ "').\n\n" ++ passwordBootstrapHelp, ?_, ?_⟩
    · simp [readPasswordFile, hpath, hstat, hk, hwin, hmode]
    · exact strHasSub_append_right _ _ _ (strHasSub_append_right _ _ _
        (strHasSub_append_right _ _ _ (strHasSub_append_right _ _ _
          (strHasSub_append_right _ _ _ (strHasSub_append_left _ _ _ (by decide))))))
  · intro c hk hperm hread
    constructor
    · intro hw
      refine ⟨sourceName ++ " at '" ++ jsTrim filePath ++ "' is empty.\n\n" ++
          passwordBootstrapHelp, ?_⟩
      rcases hperm with hperm | hperm
      · simp [readPasswordFile, hpath, hstat, hk, hperm, hread, hw]
      · simp [readPasswordFile, hpath, hstat, hk, hperm, hread, hw]
    · intro hw
      rcases hperm with hperm | hperm
      · simp [readPasswordFile, hpath, hstat, hk, hperm, hread, hw]
      · simp [readPasswordFile, hpath, hstat, hk, hperm, hread, hw]

/-- Closed instance of C6: an owner-only regular file whose content is
`"cli-file-secret\n"` resolves to the stripped secret. -/
theorem readPasswordFile_security_checks_witness :
    readPasswordFile secretFS "linux" "/tmp/pw" "--password-file" = .ok "cli-file-secret" := by
  have h := (readPasswordFile_security_checks secretFS "linux" "/tmp/pw" "--password-file"
      ⟨.regular, 0o600⟩ rfl rfl).2.2.2 "cli-file-secret\n" rfl (Or.inr (by decide)) rfl
  have h2 := h.2 (by decide)
  have e : trimTrailingNewlines "cli-file-secret\n" = "cli-file-secret" := by decide
  rw [e] at h2
  exact h2

/-- C8: in the `claim` CLI handler, a downgrade attempt is rejected with the
downgrade error for every value of the gathered evidence — requirement
validation cannot influence or pre-empt that rejection — the stored claim is
unchanged on every error path, and it changes only to a target that passed
both the downgrade check and `validateClaimRequirements` (all-or-nothing). -/
theorem claimSet_all_or_nothing
    (stored : Option VerificationClaim) (hasAgentDomain hasAgentId hasPublicKeyHash : Bool)
    (haiStatusVerified : Option Bool) (level : String) :
    ((claimSetHandler stored hasAgentDomain hasAgentId hasPublicKeyHash haiStatusVerified
        level).1.error.isSome = true →
      (claimSetHandler stored hasAgentDomain hasAgentId hasPublicKeyHash haiStatusVerified
        level).2 = stored) ∧
    (∀ newClaim, claimOfText level = some newClaim →
      canUpgradeClaim (some (stored.getD .unverified)) newClaim = false →
      (claimSetHandler stored hasAgentDomain hasAgentId hasPublicKeyHash haiStatusVerified
        level).1.error = some "Claim downgrade not allowed" ∧
      (claimSetHandler stored hasAgentDomain hasAgentId hasPublicKeyHash haiStatusVerified
        level).2 = stored) ∧
    ((claimSetHandler stored hasAgentDomain hasAgentId hasPublicKeyHash haiStatusVerified
        level).2 ≠ stored →
      ∃ newClaim, claimOfText level = some newClaim ∧
        canUpgradeClaim (some (stored.getD .unverified)) newClaim = true ∧
        validateClaimRequirements newClaim hasAgentDomain
          (gatherHaiRegistered newClaim hasAgentId hasPublicKeyHash haiStatusVerified) = none ∧
        (claimSetHandler stored hasAgentDomain hasAgentId hasPublicKeyHash haiStatusVerified
          level).2 = some newClaim ∧
        (claimSetHandler stored hasAgentDomain hasAgentId hasPublicKeyHash haiStatusVerified
          level).1.error = none) := by
  rcases hcl : claimOfText level with _ | newClaim
  · have hpair : claimSetHandler stored hasAgentDomain hasAgentId hasPublicKeyHash
        haiStatusVerified level =
        ({ text := "Invalid claim level: " ++ level ++ ". Valid options: " ++
             String.intercalate ", " validLevels,
           error := some "Invalid claim level" }, stored) := by
      simp [claimSetHandler, hcl]
    rw [hpair]
    refine ⟨fun _ => rfl, ?_, fun hne => absurd rfl hne⟩
    intro nc hnc hdown
    cases hnc
  · by_cases hup : canUpgradeClaim (some (stored.getD .unverified)) newClaim = true
    · rcases hval : validateClaimRequirements newClaim hasAgentDomain
          (gatherHaiRegistered newClaim hasAgentId hasPublicKeyHash haiStatusVerified)
          with _ | err
      · have hpair : claimSetHandler stored hasAgentDomain hasAgentId hasPublicKeyHash
            haiStatusVerified level =
            ({ text := "Verification claim updated: " ++ (stored.getD .unverified).toText ++
                 " -> " ++ newClaim.toText,
               error := none }, some newClaim) := by
          simp [claimSetHandler, hcl, hup, hval]
        rw [hpair]
        refine ⟨?_, ?_, ?_⟩
        · intro hc
          simp at hc
        · intro nc hnc hdown
          injection hnc with hn
          subst hn
          rw [hdown] at hup
          cases hup
        · intro _
          exact ⟨newClaim, rfl, hup, hval, rfl, rfl⟩
      · have hpair : claimSetHandler stored hasAgentDomain hasAgentId hasPublicKeyHash
            haiStatusVerified level =
            ({ text := "Cannot set claim to '" ++ newClaim.toText ++ "': " ++ err,
               error := some err }, stored) := by
          simp [claimSetHandler, hcl, hup, hval]
        rw [hpair]
        refine ⟨fun _ => rfl, ?_, fun hne => absurd rfl hne⟩
        intro nc hnc hdown
        injection hnc with hn
        subst hn
        rw [hdown] at hup
        cases hup
    · have hup' : canUpgradeClaim (some (stored.getD .unverified)) newClaim = false := by
        revert hup
        cases canUpgradeClaim (some (stored.getD .unverified)) newClaim <;> simp
      have hpair : claimSetHandler stored hasAgentDomain hasAgentId hasPublicKeyHash
          haiStatusVerified level =
          ({ text := "Cannot downgrade verification claim from '" ++
               (stored.getD .unverified).toText ++ "' to '" ++ newClaim.toText ++ "'",
             error := some "Claim downgrade not allowed" }, stored) := by
        simp [claimSetHandler, hcl, hup']
      rw [hpair]
      refine ⟨fun _ => rfl, ?_, fun hne => absurd rfl hne⟩
      intro nc hnc hdown
      injection hnc with hn
      subst hn
      exact ⟨rfl, rfl⟩

/-- Closed instance of C8: attempting to downgrade from `verified` to
`unverified` yields the downgrade error and leaves the stored claim intact. -/
theorem claimSet_all_or_nothing_witness :
    (claimSetHandler (some .verified) false false false none "unverified").1.error =
      some "Claim downgrade not allowed" ∧
    (claimSetHandler (some .verified) false false false none "unverified").2 = some .verified :=
  (claimSet_all_or_nothing (some .verified) false false false none "unverified").2.1
    .unverified rfl (by decide)
